import Mathlib

/-!
Shallow embedding of the `insightsai` backend data service
(`backend/services/data_service.py`, with the routers in
`backend/routers/` and the settings in `backend/core/config.py`).

A pandas DataFrame produced by `pd.read_csv` is modelled as the parsed
header plus the raw string cells of each row; `read_csv` dtype inference
is modelled structurally: a column carries a numeric dtype exactly when
every one of its cells parses as an int/float literal.  Fallible Python
code (raised exceptions) is modelled with `Except`; the module-level
`current_df` state is threaded explicitly as an `Option DataFrame`.
-/

deriving instance DecidableEq for Except

namespace Insights

/-- A parsed tabular dataset: `pd.read_csv` result.  `header` is the first
CSV line split on commas, `rows` the remaining lines (each split on
commas, all of header length). -/
structure DataFrame where
  header : List String
  rows : List (List String)
deriving DecidableEq

/-- Value of a run of decimal digits. -/
def digitsVal (cs : List Char) : Nat :=
  cs.foldl (fun n c => n * 10 + (c.toNat - 48)) 0

/-- Numeric-literal parsing as done by pandas when assigning dtypes:
an optional sign, then digits with an optional decimal point. -/
def parseNum (s : String) : Option Rat :=
  let (neg, cs) :=
    match s.data with
    | '-' :: r => (true, r)
    | '+' :: r => (false, r)
    | r => (false, r)
  let ip := cs.takeWhile Char.isDigit
  let rest := cs.dropWhile Char.isDigit
  let signed : Rat → Rat := fun q => if neg then -q else q
  match rest with
  | [] => if ip.isEmpty then none else some (signed (digitsVal ip))
  | '.' :: fp =>
      if fp.all Char.isDigit && !(ip.isEmpty && fp.isEmpty) then
        some (signed ((digitsVal ip : Rat) + (digitsVal fp : Rat) / (10 ^ fp.length)))
      else none
  | _ => none

/-- ASCII lowering of one character (`str.lower()` on the names used
here, which are ASCII). -/
def lowerChar (c : Char) : Char :=
  if 'A' ≤ c && c ≤ 'Z' then Char.ofNat (c.toNat + 32) else c

/-- Python `s.lower()`. -/
def toLower (s : String) : String :=
  ⟨s.data.map lowerChar⟩

/-- Split a character list at every occurrence of `sep`. -/
def splitChar (sep : Char) (cs : List Char) : List (List Char) :=
  cs.foldr
    (fun c acc =>
      match acc with
      | [] => [[c]]
      | g :: gs => if c == sep then [] :: g :: gs else (c :: g) :: gs)
    [[]]

/-- Python `s.split(sep)` for a one-character separator. -/
def splitStr (s : String) (sep : Char) : List String :=
  (splitChar sep s.data).map (fun cs => ⟨cs⟩)

/-- Is `needle` an initial segment of `hay`? -/
def headMatches : List Char → List Char → Bool
  | [], _ => true
  | _ :: _, [] => false
  | a :: as, b :: bs => a == b && headMatches as bs

/-- Does `hay` contain `needle` as a contiguous run? -/
def containsSub (needle : List Char) : List Char → Bool
  | [] => needle.isEmpty
  | c :: cs => headMatches needle (c :: cs) || containsSub needle cs

/-- Python `needle in hay` on strings (substring containment). -/
def strContains (hay needle : String) : Bool :=
  containsSub needle.data hay.data

/-- Index of a named column in the header (`df.columns.get_loc`). -/
def colIdx (df : DataFrame) (name : String) : Option Nat :=
  df.header.findIdx? (· == name)

/-- Python `name in df.columns`. -/
def hasCol (df : DataFrame) (name : String) : Bool :=
  df.header.contains name

/-- Raw cells of a named column, in row order (empty if absent). -/
def colCells (df : DataFrame) (name : String) : List String :=
  match colIdx df name with
  | none => []
  | some i => df.rows.map (fun r => r.getD i "")

/-- The column exists and every cell parses as a number: under the
`read_csv` dtype-inference model this is exactly "the column has a
numeric dtype". -/
def colIsNumeric (df : DataFrame) (name : String) : Bool :=
  hasCol df name && (colCells df name).all (fun s => (parseNum s).isSome)

/-- `df.select_dtypes(include="number").columns.tolist()` under the
structural dtype model. -/
def select_dtypes_number (df : DataFrame) : List String :=
  df.header.filter (fun c => colIsNumeric df c)

/-- Parsed numeric values of a column. -/
def colNums (df : DataFrame) (name : String) : List Rat :=
  (colCells df name).filterMap parseNum

def ratSum (l : List Rat) : Rat :=
  l.foldl (· + ·) 0

def ratMinimum : List Rat → Rat
  | [] => 0
  | x :: xs => xs.foldl min x

def ratMaximum : List Rat → Rat
  | [] => 0
  | x :: xs => xs.foldl max x

/-- Python `round(x, 2)` (round half to even on the second decimal). -/
def round2 (q : Rat) : Rat :=
  let x := q * 100
  let f : Int := x.floor
  let r := x - (f : Rat)
  let n : Int :=
    if r > 1 / 2 then f + 1
    else if r < 1 / 2 then f
    else if f % 2 = 0 then f else f + 1
  (n : Rat) / 100

/-- Per-column statistics entry of the summary. -/
structure ColStats where
  mean : Rat
  min : Rat
  max : Rat
  sum : Rat
deriving DecidableEq

def computeStats (vals : List Rat) : ColStats :=
  { mean := round2 (ratSum vals / (vals.length : Rat))
    min := round2 (ratMinimum vals)
    max := round2 (ratMaximum vals)
    sum := round2 (ratSum vals) }

/-- `pd.to_datetime` on a single cell, for ISO-style `YYYY-MM` /
`YYYY-MM-DD` strings; dates are encoded as `y*10000 + m*100 + d` so that
the numeric order is the calendar order. -/
def parseDate (s : String) : Option Nat :=
  match splitStr s '-' with
  | [y, m] =>
      if y.data.all Char.isDigit && !y.data.isEmpty && m.data.all Char.isDigit && !m.data.isEmpty then
        some (digitsVal y.data * 10000 + digitsVal m.data * 100 + 1)
      else none
  | [y, m, d] =>
      if y.data.all Char.isDigit && !y.data.isEmpty && m.data.all Char.isDigit && !m.data.isEmpty
          && d.data.all Char.isDigit && !d.data.isEmpty then
        some (digitsVal y.data * 10000 + digitsVal m.data * 100 + digitsVal d.data)
      else none
  | _ => none

def natMinimum : List Nat → Nat
  | [] => 0
  | x :: xs => xs.foldl min x

def natMaximum : List Nat → Nat
  | [] => 0
  | x :: xs => xs.foldl max x

structure DateRange where
  column : String
  min : Nat
  max : Nat
deriving DecidableEq

/-- `_detect_date_range`: scan columns in order for the first whose
lowercase name contains "date" or "month"; try to parse every cell of
that one column as a date (the loop `break`s after the first match
whether or not parsing succeeds). -/
def detect_date_range (df : DataFrame) : Option DateRange :=
  match df.header.find? (fun c => strContains (toLower c) "date" || strContains (toLower c) "month") with
  | none => none
  | some col =>
      let cells := colCells df col
      if cells.all (fun s => (parseDate s).isSome) then
        let ds := cells.filterMap parseDate
        some { column := col, min := natMinimum ds, max := natMaximum ds }
      else none

/-- `models/schemas.py` `DataSummary`. -/
structure DataSummary where
  row_count : Nat
  column_count : Nat
  columns : List String
  numeric_columns : List String
  date_range : Option DateRange
  summary_stats : List (String × ColStats)
deriving DecidableEq

/-- `compute_summary`. -/
def compute_summary (df : DataFrame) : DataSummary :=
  let numeric_cols := select_dtypes_number df
  { row_count := df.rows.length
    column_count := df.header.length
    columns := df.header
    numeric_columns := numeric_cols
    date_range := detect_date_range df
    summary_stats := numeric_cols.map (fun c => (c, computeStats (colNums df c))) }

/-! ### Chart aggregations -/

/-- A pandas cell value as it appears in chart records: a number, a
string, or one of the IEEE special values that float division by zero
produces. -/
inductive PdVal where
  | num (q : Rat)
  | str (s : String)
  | inf
  | negInf
  | nan
deriving DecidableEq

/-- pandas element-wise float division: division by zero yields
`inf` / `-inf` / `nan` (it does not raise). -/
def pdDiv (a b : Rat) : PdVal :=
  if b = 0 then
    if a > 0 then .inf else if a < 0 then .negInf else .nan
  else .num (a / b)

/-- `round(v, 2)` lifted to pandas values: special values pass through. -/
def pdRound2 : PdVal → PdVal
  | .num q => .num (round2 q)
  | v => v

/-- Truncation toward zero, as Python `int()` on a float. -/
def ratTrunc (q : Rat) : Int :=
  q.num.tdiv (q.den : Int)

/-- A raised pandas exception escaping a chart handler. -/
inductive PdErr where
  | keyError (cols : List String)
deriving DecidableEq

/-- One record of `to_dict(orient="records")`. -/
abbrev Record := List (String × PdVal)

/-- Insertion step for sorting group keys in ascending string order. -/
def insertStr (x : String) : List String → List String
  | [] => [x]
  | y :: ys => if compare y x == .lt then y :: insertStr x ys else x :: y :: ys

def sortStr (l : List String) : List String :=
  l.foldr insertStr []

/-- Distinct values in first-appearance order. -/
def uniqueKeys (cells : List String) : List String :=
  cells.foldl (fun acc c => if acc.contains c then acc else acc ++ [c]) []

/-- `df.groupby(keyCol)` group keys: pandas sorts them ascending. -/
def groupKeys (df : DataFrame) (keyCol : String) : List String :=
  sortStr (uniqueKeys (colCells df keyCol))

/-- Sum of the (numeric) values of column index `vi` over the rows whose
cell at column index `ki` equals `key`. -/
def groupSum (df : DataFrame) (ki vi : Nat) (key : String) : Rat :=
  ratSum (df.rows.filterMap (fun r =>
    if r.getD ki "" == key then parseNum (r.getD vi "") else none))

/-- `_find_date_col`: first column whose lowercase name IS `"month"` or
`"date"` (exact membership test `c.lower() in ("month", "date")`, not
the containment test its docstring announces). -/
def _find_date_col (df : DataFrame) : Option String :=
  df.header.find? (fun c => toLower c == "month" || toLower c == "date")

/-- The category-column scan inlined in `get_chart_data_by_category`. -/
def _find_category_col (df : DataFrame) : Option String :=
  df.header.find? (fun c => strContains (toLower c) "category" || strContains (toLower c) "product")

/-- The region-column scan inlined in `get_chart_data_by_region`. -/
def _find_region_col (df : DataFrame) : Option String :=
  df.header.find? (fun c => strContains (toLower c) "region")

/-- The campaign-column scan inlined in `get_chart_data_campaign_performance`. -/
def _find_campaign_col (df : DataFrame) : Option String :=
  df.header.find? (fun c => strContains (toLower c) "campaign")

/-- `get_chart_data_revenue_trend`: returns `[]` when no date column is
found, but the named aggregation `.agg(revenue=..., customers=...)`
raises `KeyError` when `revenue` or `customers` is missing. -/
def get_chart_data_revenue_trend (df : DataFrame) : Except PdErr (List Record) :=
  match _find_date_col df with
  | none => .ok []
  | some date_col =>
      let missing := ["revenue", "customers"].filter (fun c => !(hasCol df c))
      if missing.isEmpty then
        let ki := (colIdx df date_col).getD 0
        .ok ((groupKeys df date_col).map (fun k =>
          [("month", PdVal.str k),
           ("revenue", PdVal.num (groupSum df ki ((colIdx df "revenue").getD 0) k)),
           ("customers", PdVal.num (groupSum df ki ((colIdx df "customers").getD 0) k))]))
      else .error (.keyError missing)

/-- `get_chart_data_by_category`. -/
def get_chart_data_by_category (df : DataFrame) : Except PdErr (List Record) :=
  match _find_category_col df with
  | none => .ok []
  | some cat_col =>
      if hasCol df "revenue" then
        let ki := (colIdx df cat_col).getD 0
        let vi := (colIdx df "revenue").getD 0
        .ok ((groupKeys df cat_col).map (fun k =>
          [("category", PdVal.str k), ("revenue", PdVal.num (groupSum df ki vi k))]))
      else .ok []

/-- `get_chart_data_by_region`. -/
def get_chart_data_by_region (df : DataFrame) : Except PdErr (List Record) :=
  match _find_region_col df with
  | none => .ok []
  | some region_col =>
      if hasCol df "revenue" then
        let ki := (colIdx df region_col).getD 0
        let vi := (colIdx df "revenue").getD 0
        .ok ((groupKeys df region_col).map (fun k =>
          [("region", PdVal.str k), ("revenue", PdVal.num (groupSum df ki vi k))]))
      else .ok []

/-- `get_chart_data_campaign_performance`. -/
def get_chart_data_campaign_performance (df : DataFrame) : Except PdErr (List Record) :=
  match _find_campaign_col df with
  | none => .ok []
  | some campaign_col =>
      let agg_cols := ["revenue", "marketing_spend", "leads_generated"].filter (fun c => hasCol df c)
      if agg_cols.isEmpty then .ok []
      else
        let ki := (colIdx df campaign_col).getD 0
        .ok ((groupKeys df campaign_col).map (fun k =>
          ("campaign", PdVal.str k) ::
            agg_cols.map (fun c => (c, PdVal.num (groupSum df ki ((colIdx df c).getD 0) k)))))

/-- `get_chart_data_conversion_funnel`. -/
def get_chart_data_conversion_funnel (df : DataFrame) : Except PdErr (List Record) :=
  .ok (([("Leads", "leads_generated"), ("Deals Closed", "deals_closed"),
        ("Customers", "customers")].filterMap (fun p =>
    if hasCol df p.2 then
      some [("stage", PdVal.str p.1), ("value", PdVal.num (ratTrunc (ratSum (colNums df p.2)) : Rat))]
    else none)))

/-- `get_chart_data_marketing_roi`: guards all three required columns,
then computes `roi = round(revenue / marketing_spend, 2)` per group with
float division (total; never a division error). -/
def get_chart_data_marketing_roi (df : DataFrame) : Except PdErr (List Record) :=
  match _find_date_col df with
  | none => .ok []
  | some date_col =>
      if hasCol df "revenue" && hasCol df "marketing_spend" then
        let ki := (colIdx df date_col).getD 0
        .ok ((groupKeys df date_col).map (fun k =>
          let rev := groupSum df ki ((colIdx df "revenue").getD 0) k
          let spend := groupSum df ki ((colIdx df "marketing_spend").getD 0) k
          [("month", PdVal.str k), ("revenue", PdVal.num rev),
           ("marketing_spend", PdVal.num spend), ("roi", pdRound2 (pdDiv rev spend))]))
      else .ok []

/-- `CHART_HANDLERS` dispatch table. -/
def CHART_HANDLERS : List (String × (DataFrame → Except PdErr (List Record))) :=
  [("revenue-trend", get_chart_data_revenue_trend),
   ("by-category", get_chart_data_by_category),
   ("by-region", get_chart_data_by_region),
   ("campaign-performance", get_chart_data_campaign_performance),
   ("conversion-funnel", get_chart_data_conversion_funnel),
   ("marketing-roi", get_chart_data_marketing_roi)]

/-! ### Loading, state and HTTP endpoints -/

/-- `core/config.py` `Settings` (environment-configurable, with the
defaults written in the source). -/
structure Settings where
  anthropic_api_key : String
  max_file_size_bytes : Nat := 10 * 1024 * 1024
  upload_dir : String := "uploads"
  sample_data_path : String := "sample_data/sales_data.csv"
  ai_model : String := "claude-sonnet-4-5-20250929"
  ai_max_tokens : Nat := 1024
deriving DecidableEq

/-- Module-level constant in `data_service.py` (10 MB, hard-coded). -/
def MAX_FILE_SIZE : Nat := 10 * 1024 * 1024

/-- `pd.read_csv` on raw uploaded text: split into non-blank lines,
first line is the header, remaining lines are rows; fails when there is
no content at all or when a row does not match the header width. -/
def parse_csv (contents : String) : Except String DataFrame :=
  match (splitStr contents '\n').filter (fun l => l ≠ "") with
  | [] => .error "No columns to parse from file"
  | h :: rest =>
      let header := splitStr h ','
      let rows := rest.map (fun l => splitStr l ',')
      if rows.all (fun r => r.length == header.length) then
        .ok { header := header, rows := rows }
      else .error "Error tokenizing data"

/-- An exception escaping `load_csv_bytes`: the `ValueError`s it raises
itself, or the `OSError` of the un-guarded disk write. -/
inductive LoadErr where
  | valueError (msg : String)
  | osError (msg : String)
deriving DecidableEq

/-- `models/schemas.py` `UploadResponse` payload. -/
structure UploadResult where
  message : String
  filename : String
  rows : Nat
  columns : Nat
deriving DecidableEq

/-- `load_csv_bytes`.  The module state `current_df` is threaded
explicitly; `diskOk` says whether the best-effort disk write
(`upload_dir.mkdir` + `write_bytes`, which has no `try` around it)
succeeds.  The function returns the raised-or-returned outcome together
with the state of `current_df` after the call. -/
def load_csv_bytes (contents filename : String) (diskOk : Bool)
    (current_df : Option DataFrame) :
    Except LoadErr UploadResult × Option DataFrame :=
  if contents.length > MAX_FILE_SIZE then
    (.error (.valueError "File too large (max 10 MB)"), current_df)
  else
    match parse_csv contents with
    | .error e => (.error (.valueError ("Failed to parse CSV: " ++ e)), current_df)
    | .ok df =>
        if df.rows.isEmpty then
          (.error (.valueError "CSV file is empty"), current_df)
        else
          -- `current_df = df` happens before the disk write
          if diskOk then
            (.ok { message := "File uploaded successfully", filename := filename,
                   rows := df.rows.length, columns := df.header.length }, some df)
          else
            (.error (.osError "disk write failed"), some df)

/-- The `RuntimeError` message of `get_current_df`. -/
def noDataDetail : String :=
  "No data loaded. Upload a CSV or load sample data first."

/-- `get_current_df`. -/
def get_current_df (current_df : Option DataFrame) : Except String DataFrame :=
  match current_df with
  | none => .error noDataDetail
  | some df => .ok df

/-- `get_raw_data` (service layer): `RuntimeError` when nothing is
loaded, otherwise the page record. -/
structure RawPage where
  data : List (List (String × String))
  total_rows : Nat
  page : Nat
  page_size : Nat
  total_pages : Nat
deriving DecidableEq

def get_raw_data (page page_size : Nat) (current_df : Option DataFrame) :
    Except String RawPage :=
  match get_current_df current_df with
  | .error e => .error e
  | .ok df =>
      let start := (page - 1) * page_size
      let subset := (df.rows.drop start).take page_size
      .ok { data := subset.map (fun r => df.header.zip r)
            total_rows := df.rows.length
            page := page
            page_size := page_size
            total_pages := (df.rows.length + page_size - 1) / page_size }

/-- An HTTPException as raised by the routers. -/
structure HttpErr where
  status_code : Nat
  detail : String
deriving DecidableEq

/-- `charts.py` response model. -/
structure ChartResponse where
  chart_type : String
  data : List Record
deriving DecidableEq

/-- The Python rendering of `list(CHART_HANDLERS.keys())`. -/
def availableList : String :=
  "[\x27revenue-trend\x27, \x27by-category\x27, \x27by-region\x27, \x27campaign-performance\x27, \x27conversion-funnel\x27, \x27marketing-roi\x27]"

/-- `GET /api/charts/{chart_type}` (`routers/charts.py`).  A `KeyError`
escaping a handler is an uncaught exception, shown as the framework 500
response. -/
def get_chart_endpoint (current_df : Option DataFrame) (chart_type : String) :
    Except HttpErr ChartResponse :=
  match get_current_df current_df with
  | .error e => .error { status_code := 404, detail := e }
  | .ok df =>
      match CHART_HANDLERS.lookup chart_type with
      | none =>
          .error { status_code := 400,
                   detail := "Unknown chart type \x27" ++ chart_type ++ "\x27. Available: " ++ availableList }
      | some handler =>
          match handler df with
          | .ok d => .ok { chart_type := chart_type, data := d }
          | .error _ => .error { status_code := 500, detail := "Internal Server Error" }

/-- `GET /api/data` (`routers/data.py`). -/
def get_data_summary_endpoint (current_df : Option DataFrame) :
    Except HttpErr DataSummary :=
  match get_current_df current_df with
  | .error e => .error { status_code := 404, detail := e }
  | .ok df => .ok (compute_summary df)

/-- `GET /api/data/raw` (`routers/data.py`). -/
def get_raw_data_endpoint (page page_size : Nat) (current_df : Option DataFrame) :
    Except HttpErr RawPage :=
  match get_raw_data page page_size current_df with
  | .error e => .error { status_code := 404, detail := e }
  | .ok r => .ok r

/-- Outcome of the external `ask_claude` call. -/
inductive AiErr where
  | authenticationError
  | other (msg : String)

structure QueryResponse where
  question : String
  answer : String
deriving DecidableEq

/-- `POST /api/query` (`routers/query.py`); the language-model call is
an opaque collaborator passed as a function. -/
def query_endpoint (current_df : Option DataFrame) (question : String)
    (ask_claude : DataFrame → String → Except AiErr String) :
    Except HttpErr QueryResponse :=
  match get_current_df current_df with
  | .error e => .error { status_code := 404, detail := e }
  | .ok df =>
      match ask_claude df question with
      | .error .authenticationError =>
          .error { status_code := 401, detail := "Invalid Anthropic API key" }
      | .error (.other e) =>
          .error { status_code := 500, detail := "AI query failed: " ++ e }
      | .ok ans => .ok { question := question, answer := ans }

/-! ### Spec-side definitions used for comparison -/

/-- Modelled from the spec (and from `_find_date_col`'s own docstring):
the date-role lookup "scans columns in their declared order and returns
the first name whose lowercase form contains any keyword for that role"
with date keywords "date" and "month".  Compare with `_find_date_col`,
which tests exact equality instead of containment. -/
def find_date_col_spec (df : DataFrame) : Option String :=
  df.header.find? (fun c => strContains (toLower c) "date" || strContains (toLower c) "month")

/-! ### Helper lemmas -/

/-- `n ≤ ⌈n / m⌉ * m` for the `(n + m - 1) / m` ceiling formula. -/
theorem le_ceil_formula_mul (n m : Nat) (hm : 0 < m) :
    n ≤ (n + m - 1) / m * m := by
  have h2 : n + m - 1 < (n + m - 1) / m * m + m := by
    have := Nat.lt_div_mul_add (a := n + m - 1) hm
    omega
  omega

/-- The integer formula `(n + m - 1) / m` computes the rational ceiling
`⌈n / m⌉`. -/
theorem total_pages_formula_eq_ceil (n m : Nat) (hm : 0 < m) :
    (((n + m - 1) / m : Nat) : ℤ) = ⌈(n : ℚ) / (m : ℚ)⌉ := by
  have hmq : (0:ℚ) < (m:ℚ) := by exact_mod_cast hm
  have h1 : (n + m - 1) / m * m ≤ n + m - 1 := Nat.div_mul_le_self _ _
  have h2 : n + m - 1 < (n + m - 1) / m * m + m := by
    have := Nat.lt_div_mul_add (a := n + m - 1) hm
    omega
  obtain ⟨q, hq, hn1, hn2⟩ :
      ∃ q : ℕ, q = (n + m - 1) / m ∧ q * m + 1 ≤ n + m ∧ n ≤ q * m :=
    ⟨_, rfl, by omega, by omega⟩
  rw [← hq]
  symm
  rw [Int.ceil_eq_iff]
  have h3 : (q:ℚ) * (m:ℚ) + 1 ≤ (n:ℚ) + (m:ℚ) := by exact_mod_cast hn1
  have h4 : (n:ℚ) ≤ (q:ℚ) * (m:ℚ) := by exact_mod_cast hn2
  constructor
  · push_cast
    rw [sub_lt_iff_lt_add, div_add' _ _ _ (ne_of_gt hmq), lt_div_iff₀ hmq]
    nlinarith
  · push_cast
    rw [div_le_iff₀ hmq]
    exact h4

/-! ### Claim theorems -/

/-- Claim C1, counterexample: `revenue-trend` does NOT return an empty
sequence when a required column is absent.  On a dataset with a
date-role column (`month`) but no `revenue` column, it raises `KeyError`
instead of returning `[]`, refuting the claim as stated. -/
theorem c1_counterexample :
    _find_date_col { header := ["month", "customers"], rows := [["2024-01", "5"]] }
      = some "month"
  ∧ hasCol { header := ["month", "customers"], rows := [["2024-01", "5"]] } "revenue" = false
  ∧ get_chart_data_revenue_trend { header := ["month", "customers"], rows := [["2024-01", "5"]] }
      = .error (.keyError ["revenue"]) := by decide

/-- Claim C1, amended: five of the six chart aggregations return an
empty sequence (not an error) when their required columns are absent;
`revenue-trend` does so only when the date-role column is absent, and
raises `KeyError` when a date column is present but `revenue` or
`customers` is missing.  In particular `by-region` with no
region-keyword column returns an empty sequence. -/
theorem c1_amended_missing_columns_empty (df : DataFrame) :
    (_find_date_col df = none → get_chart_data_revenue_trend df = .ok [])
  ∧ (_find_category_col df = none ∨ hasCol df "revenue" = false →
      get_chart_data_by_category df = .ok [])
  ∧ (_find_region_col df = none ∨ hasCol df "revenue" = false →
      get_chart_data_by_region df = .ok [])
  ∧ (_find_campaign_col df = none ∨
      (hasCol df "revenue" = false ∧ hasCol df "marketing_spend" = false ∧
        hasCol df "leads_generated" = false) →
      get_chart_data_campaign_performance df = .ok [])
  ∧ (hasCol df "leads_generated" = false ∧ hasCol df "deals_closed" = false ∧
      hasCol df "customers" = false →
      get_chart_data_conversion_funnel df = .ok [])
  ∧ (_find_date_col df = none ∨ hasCol df "revenue" = false ∨
      hasCol df "marketing_spend" = false →
      get_chart_data_marketing_roi df = .ok []) := by
  refine ⟨?_, ?_, ?_, ?_, ?_, ?_⟩
  · intro h
    unfold get_chart_data_revenue_trend
    rw [h]
  · rintro (h | h)
    · unfold get_chart_data_by_category
      rw [h]
    · unfold get_chart_data_by_category
      cases hfind : _find_category_col df with
      | none => rfl
      | some c => simp [h]
  · rintro (h | h)
    · unfold get_chart_data_by_region
      rw [h]
    · unfold get_chart_data_by_region
      cases hfind : _find_region_col df with
      | none => rfl
      | some c => simp [h]
  · rintro (h | ⟨h1, h2, h3⟩)
    · unfold get_chart_data_campaign_performance
      rw [h]
    · unfold get_chart_data_campaign_performance
      cases hfind : _find_campaign_col df with
      | none => rfl
      | some c => simp [h1, h2, h3]
  · rintro ⟨h1, h2, h3⟩
    unfold get_chart_data_conversion_funnel
    simp [h1, h2, h3]
  · rintro (h | h | h)
    · unfold get_chart_data_marketing_roi
      rw [h]
    · unfold get_chart_data_marketing_roi
      cases hfind : _find_date_col df with
      | none => rfl
      | some c => simp [h]
    · unfold get_chart_data_marketing_roi
      cases hfind : _find_date_col df with
      | none => rfl
      | some c => simp [h]

/-- Claim C1, witness for the amended theorem at a concrete dataset
with none of the role columns. -/
theorem c1_amended_missing_columns_empty_witness :
    get_chart_data_revenue_trend { header := ["foo"], rows := [["1"]] } = .ok []
  ∧ get_chart_data_by_region { header := ["foo"], rows := [["1"]] } = .ok []
  ∧ get_chart_data_marketing_roi { header := ["foo"], rows := [["1"]] } = .ok [] :=
  ⟨(c1_amended_missing_columns_empty _).1 (by decide),
   (c1_amended_missing_columns_empty _).2.2.1 (Or.inl (by decide)),
   (c1_amended_missing_columns_empty _).2.2.2.2.2 (Or.inl (by decide))⟩

/-- Claim C2: the date-role lookup `_find_date_col` used by
`revenue-trend` and `marketing-roi` tests its lowercase column name for
EXACT equality with "month"/"date" (`c.lower() in ("month", "date")`),
not for keyword containment as the claim, the spec, and the function's
own docstring state; the scan inside `_detect_date_range` does use
containment, so the column `order_date` is found by the summary's
date-range scan and by the spec-modelled lookup but missed by
`_find_date_col`. -/
theorem c2_date_lookup_exact_not_containment :
    _find_date_col { header := ["order_date", "revenue"], rows := [["2024-01-05", "100"]] } = none
  ∧ find_date_col_spec { header := ["order_date", "revenue"], rows := [["2024-01-05", "100"]] }
      = some "order_date"
  ∧ detect_date_range { header := ["order_date", "revenue"], rows := [["2024-01-05", "100"]] }
      = some { column := "order_date", min := 20240105, max := 20240105 } := by decide

/-- Claim C3: the summary's numeric columns are exactly the columns in
which every value parses as a number, and exactly those columns get
mean/min/max/sum statistics entries. -/
theorem c3_numeric_columns_structural (df : DataFrame) (c : String) :
    (c ∈ (compute_summary df).numeric_columns ↔
      c ∈ df.header ∧ ∀ s ∈ colCells df c, (parseNum s).isSome = true)
  ∧ (compute_summary df).summary_stats.map Prod.fst = (compute_summary df).numeric_columns := by
  constructor
  · simp [compute_summary, select_dtypes_number, List.mem_filter, colIsNumeric,
      Bool.and_eq_true, List.all_eq_true, hasCol, List.contains, List.elem_iff,
      and_assoc]
  · have hid : (Prod.fst ∘ fun c : String => (c, computeStats (colNums df c))) = id := rfl
    simp only [compute_summary, List.map_map, hid, List.map_id]

/-- Claim C4: with no dataset loaded, every derived endpoint — summary,
raw page, any chart type, and the natural-language query — fails with
the no-data-loaded condition (HTTP 404, `RuntimeError` message), never
returning empty or default data. -/
theorem c4_no_data_loaded_all_fail (page page_size : Nat) (chart_type question : String)
    (ask : DataFrame → String → Except AiErr String) :
    get_data_summary_endpoint none = .error { status_code := 404, detail := noDataDetail }
  ∧ get_raw_data_endpoint page page_size none
      = .error { status_code := 404, detail := noDataDetail }
  ∧ get_chart_endpoint none chart_type
      = .error { status_code := 404, detail := noDataDetail }
  ∧ query_endpoint none question ask
      = .error { status_code := 404, detail := noDataDetail } :=
  ⟨rfl, rfl, rfl, rfl⟩

/-- Claim C5: on a dataset with a date-role column and `revenue` and
`marketing_spend` columns, `marketing-roi` never raises a division
error: the handler is total, a group with zero spend producing the
defined IEEE quotient (`inf`/`-inf`/`nan` via `pdDiv`) instead of an
exception. -/
theorem c5_marketing_roi_no_division_error (df : DataFrame)
    (hd : (_find_date_col df).isSome = true)
    (hrev : hasCol df "revenue" = true)
    (hsp : hasCol df "marketing_spend" = true) :
    ∃ rows, get_chart_data_marketing_roi df = .ok rows := by
  cases hdc : _find_date_col df with
  | none => exact ⟨[], by unfold get_chart_data_marketing_roi; rw [hdc]⟩
  | some d =>
      unfold get_chart_data_marketing_roi
      rw [hdc, hrev, hsp]
      exact ⟨_, rfl⟩

/-- Claim C5, witness: a single group with `revenue = 200` and
`marketing_spend = 0` yields a result, not an error. -/
theorem c5_marketing_roi_no_division_error_witness :
    ∃ rows, get_chart_data_marketing_roi
      { header := ["month", "revenue", "marketing_spend"],
        rows := [["2024-01", "200", "0"]] } = .ok rows :=
  c5_marketing_roi_no_division_error _ (by decide) (by decide) (by decide)

/-- Sanity check of the embedding: the zero-spend group's `roi` field is
the IEEE `inf`, the sums being 200 and 0. -/
theorem marketing_roi_zero_spend_value :
    get_chart_data_marketing_roi
      { header := ["month", "revenue", "marketing_spend"],
        rows := [["2024-01", "200", "0"]] }
    = .ok [[("month", PdVal.str "2024-01"), ("revenue", PdVal.num 200),
            ("marketing_spend", PdVal.num 0), ("roi", PdVal.inf)]] := by
  with_unfolding_all decide

/-- Claim C6: for positive `page` and `page_size`, pagination returns
`total_pages = ceil(total_rows / page_size)` and, for any `page` past
`total_pages`, an empty row sequence with `total_rows`/`total_pages`
still correctly populated (no error). -/
theorem c6_pagination_ceil_and_empty_beyond (df : DataFrame) (page page_size : Nat)
    (hp : 0 < page) (hps : 0 < page_size) :
    ∃ pg, get_raw_data page page_size (some df) = .ok pg
      ∧ pg.total_rows = df.rows.length
      ∧ pg.page = page ∧ pg.page_size = page_size
      ∧ ((pg.total_pages : ℤ) = ⌈(df.rows.length : ℚ) / (page_size : ℚ)⌉)
      ∧ (page > pg.total_pages → pg.data = []) := by
  refine ⟨_, rfl, rfl, rfl, rfl, total_pages_formula_eq_ceil _ _ hps, ?_⟩
  intro hgt
  have hgt' : (df.rows.length + page_size - 1) / page_size < page := hgt
  have h2 : df.rows.length ≤ (df.rows.length + page_size - 1) / page_size * page_size :=
    le_ceil_formula_mul _ _ hps
  have h3 : (df.rows.length + page_size - 1) / page_size * page_size
      ≤ (page - 1) * page_size :=
    Nat.mul_le_mul_right _ (by omega)
  have hle : df.rows.length ≤ (page - 1) * page_size := le_trans h2 h3
  show ((df.rows.drop ((page - 1) * page_size)).take page_size).map _ = []
  rw [List.drop_eq_nil_of_le hle, List.take_nil]
  rfl

/-- Claim C6, witness: a 3-row dataset, `page_size = 2`, `page = 5`. -/
theorem c6_pagination_ceil_and_empty_beyond_witness :
    ∃ pg, get_raw_data 5 2 (some { header := ["a"], rows := [["1"], ["2"], ["3"]] }) = .ok pg
      ∧ pg.total_rows = 3
      ∧ pg.page = 5 ∧ pg.page_size = 2
      ∧ ((pg.total_pages : ℤ) = ⌈(3 : ℚ) / (2 : ℚ)⌉)
      ∧ (5 > pg.total_pages → pg.data = []) :=
  c6_pagination_ceil_and_empty_beyond
    { header := ["a"], rows := [["1"], ["2"], ["3"]] } 5 2 (by decide) (by decide)

/-- Claim C7: the in-memory dataset is indeed replaced even when the
disk write fails, but the failure is NOT swallowed: `load_csv_bytes`
has no `try` around `upload_dir.mkdir` / `write_bytes`, so the OS error
propagates to the caller even though parsing succeeded (contradicting
the "best-effort" comment in the source and the spec).  With an intact
disk the same input loads successfully. -/
theorem c7_persist_failure_propagates :
    load_csv_bytes "a,b\n1,2" "f.csv" false none
      = (.error (.osError "disk write failed"),
          some { header := ["a", "b"], rows := [["1", "2"]] })
  ∧ (load_csv_bytes "a,b\n1,2" "f.csv" true none).1
      = .ok { message := "File uploaded successfully", filename := "f.csv",
              rows := 1, columns := 2 } := by decide

/-- Claim C8, counterexample: the upload size check does not consult the
configurable `Settings.max_file_size_bytes`.  With the setting at 1
byte, an 8-byte upload still succeeds, because `load_csv_bytes`
compares against the hard-coded module constant `MAX_FILE_SIZE`. -/
theorem c8_counterexample :
    ("a,b\n1,2".length >
      ({ anthropic_api_key := "key", max_file_size_bytes := 1 } : Settings).max_file_size_bytes)
  ∧ (load_csv_bytes "a,b\n1,2" "f.csv" true none).1
      = .ok { message := "File uploaded successfully", filename := "f.csv",
              rows := 1, columns := 2 } := by decide

/-- Claim C8, amended: an upload longer than the hard-coded 10 MiB
constant `MAX_FILE_SIZE` (not the `max_file_size_bytes` setting) is
rejected with the file-too-large `ValueError` before any parsing is
attempted — the outcome does not depend on the parse result or the
disk, and the stored dataset is untouched. -/
theorem c8_amended_too_large_rejected_before_parse
    (contents filename : String) (diskOk : Bool) (st : Option DataFrame)
    (h : contents.length > MAX_FILE_SIZE) :
    load_csv_bytes contents filename diskOk st
      = (.error (.valueError "File too large (max 10 MB)"), st) := by
  unfold load_csv_bytes
  rw [if_pos h]

/-- An upload one byte over the hard-coded limit. -/
def bigContents : String :=
  ⟨List.replicate (MAX_FILE_SIZE + 1) 'a'⟩

/-- Claim C8, witness for the amended theorem at a concrete over-sized
input. -/
theorem c8_amended_too_large_rejected_before_parse_witness :
    bigContents.length > MAX_FILE_SIZE
  ∧ load_csv_bytes bigContents "big.csv" true none
      = (.error (.valueError "File too large (max 10 MB)"), none) := by
  have hlen : bigContents.length > MAX_FILE_SIZE := by
    unfold bigContents MAX_FILE_SIZE
    simp only [String.length, List.length_replicate]
    omega
  exact ⟨hlen, c8_amended_too_large_rejected_before_parse _ _ _ _ hlen⟩

/-- Claim C9: every failing upload load — bytes too large, bytes that do
not parse as CSV, or a parse with zero data rows — leaves the previously
active dataset unchanged. -/
theorem c9_failed_load_preserves_current_df
    (contents filename : String) (diskOk : Bool) (st : Option DataFrame)
    (h : contents.length > MAX_FILE_SIZE
      ∨ (∃ e, parse_csv contents = .error e)
      ∨ (∃ df, parse_csv contents = .ok df ∧ df.rows = [])) :
    (load_csv_bytes contents filename diskOk st).2 = st := by
  unfold load_csv_bytes
  by_cases hs : contents.length > MAX_FILE_SIZE
  · rw [if_pos hs]
  · rw [if_neg hs]
    rcases h with h | ⟨e, he⟩ | ⟨df, hdf, hrows⟩
    · exact absurd h hs
    · rw [he]
    · rw [hdf]
      simp [hrows]

/-- Claim C9, witness: after a failed parse (ragged row), a previously
loaded dataset is still the current one. -/
theorem c9_failed_load_preserves_current_df_witness :
    (load_csv_bytes "a,b\n1" "f.csv" true
        (some { header := ["x"], rows := [["1"]] })).2
      = some { header := ["x"], rows := [["1"]] } :=
  c9_failed_load_preserves_current_df _ _ _ _
    (Or.inr (Or.inl ⟨"Error tokenizing data", by decide⟩))

/-- Claim C10: in the chart endpoint the no-data check precedes
chart-type validation: with no dataset an unknown chart type yields the
no-data-loaded 404, and the unknown-chart-type 400 (listing the six
valid identifiers) is raised only when a dataset is active. -/
theorem c10_no_data_check_precedes_type_check (chart_type : String) (df : DataFrame)
    (h : CHART_HANDLERS.lookup chart_type = none) :
    get_chart_endpoint none chart_type
      = .error { status_code := 404, detail := noDataDetail }
  ∧ get_chart_endpoint (some df) chart_type
      = .error { status_code := 400,
                 detail := "Unknown chart type \x27" ++ chart_type ++ "\x27. Available: " ++ availableList } := by
  refine ⟨rfl, ?_⟩
  unfold get_chart_endpoint
  rw [show get_current_df (some df) = .ok df from rfl, h]

/-- Claim C10, witness at the unknown identifier `not-a-real-type`. -/
theorem c10_no_data_check_precedes_type_check_witness :
    get_chart_endpoint none "not-a-real-type"
      = .error { status_code := 404, detail := noDataDetail }
  ∧ get_chart_endpoint (some { header := ["a"], rows := [["1"]] }) "not-a-real-type"
      = .error { status_code := 400,
                 detail := "Unknown chart type \x27not-a-real-type\x27. Available: " ++ availableList } :=
  c10_no_data_check_precedes_type_check "not-a-real-type"
    { header := ["a"], rows := [["1"]] } rfl

end Insights

